import Mathlib

/-!
Verification development for the sub-agents MCP server.

This file gives a shallow embedding, in Lean 4, of the core logic of the
repository: tool-name sanitization (`DynamicAgentTool.sanitizeToolName`),
front-matter parsing (`AgentManager.parseFrontmatter`), agent-name validation
(`AgentManager.getAgent`), call-parameter validation
(`DynamicAgentTool.validateParams`), execution-result formatting
(`DynamicAgentTool.formatExecutionResponse`), the error-containing tool
execution path (`DynamicAgentTool.execute`), and the dynamic tool registry
build (`McpServer.initializeDynamicTools`).

Conventions of the embedding:
- JavaScript strings are modelled by Lean `String` (a structure over
  `List Char`); the ASCII fragment of JS whitespace is modelled explicitly.
- Fallible / throwing code is modelled with `Except String`; a `try`/`catch`
  boundary becomes a total function matching on the `Except`.
- External collaborators (the filesystem and the subprocess-spawning
  execution engine) are out of scope per the design: their outcomes are
  passed in as `Except`-valued parameters.
-/

deriving instance DecidableEq for Except

namespace SubAgents

/-- Model of the ASCII fragment of JavaScript whitespace (`\s` and
`String.prototype.trim`). The full JS definition also covers Unicode spaces,
which no input in this development uses. -/
def jsWhitespace (c : Char) : Bool :=
  c = ' ' || c = '\t' || c = '\n' || c = '\r' || c = Char.ofNat 11 || c = Char.ofNat 12

/-- Model of JavaScript `String.prototype.trim`: strip leading and trailing
whitespace. -/
def jsTrim (s : String) : String :=
  String.mk (((s.data.dropWhile jsWhitespace).reverse.dropWhile jsWhitespace).reverse)

/-- Does `l` start with `pat`? Helper for substring containment. -/
def startsWithL : List Char → List Char → Bool
  | _, [] => true
  | [], _ :: _ => false
  | a :: as, b :: bs => a = b && startsWithL as bs

/-- Does `l` contain `pat` as a contiguous sublist? -/
def containsL : List Char → List Char → Bool
  | [], pat => pat.isEmpty
  | l@(_ :: as), pat => startsWithL l pat || containsL as pat

/-- Model of JavaScript `String.prototype.includes`. -/
def jsIncludes (s pat : String) : Bool :=
  containsL s.data pat.data

/-- Characters the tool-name sanitizer keeps unchanged: the JS regex character
class `[a-zA-Z0-9_-]` from `DynamicAgentTool.sanitizeToolName`. -/
def isToolNameChar (c : Char) : Bool :=
  ('a' ≤ c && c ≤ 'z') || ('A' ≤ c && c ≤ 'Z') || ('0' ≤ c && c ≤ '9') || c = '_' || c = '-'

/-- Embedding of `DynamicAgentTool.sanitizeToolName`:
`agent_${agentName.replace(/[^a-zA-Z0-9_-]/g, '_')}`. The regex replaces each
character outside the class, one character at a time. -/
def sanitizeToolName (agentName : String) : String :=
  "agent_" ++ String.mk (agentName.data.map fun c => if isToolNameChar c then c else '_')

example : sanitizeToolName "test-agent" = "agent_test-agent" := by decide

example : sanitizeToolName "test agent!@#" = "agent_test_agent___" := by decide

example : sanitizeToolName "test_agent-123" = "agent_test_agent-123" := by decide

/-! ## Front-matter parsing (`AgentManager.parseFrontmatter`)

The source matches the file content against the regex
`/^---\s*\n([\s\S]*?)\n---\s*\n([\s\S]*)$/`, splits the captured front-matter
text on newlines, and matches each line against `/^(\w+):\s*(.+)$/`.
The functions below model those regexes: the opening delimiter consumes the
longest all-whitespace run ending in a newline (greedy `\s*` followed by
`\n`, with backtracking modelled by trying shorter runs), the lazy group
`([\s\S]*?)` stops at the earliest closing delimiter, and the closing
delimiter again consumes the longest all-whitespace run ending in a newline.
-/

/-- Word characters of the JS regex class `\w` (`[A-Za-z0-9_]`). -/
def isWordChar (c : Char) : Bool :=
  ('a' ≤ c && c ≤ 'z') || ('A' ≤ c && c ≤ 'Z') || ('0' ≤ c && c ≤ '9') || c = '_'

/-- Split a character list on newline characters, like JS `split('\n')`:
the empty list yields one empty line. -/
def splitNl : List Char → List (List Char)
  | [] => [[]]
  | c :: cs =>
    if c = '\n' then [] :: splitNl cs
    else
      match splitNl cs with
      | [] => [[c]]
      | l :: ls => (c :: l) :: ls

/-- All lengths `k` such that the first `k` characters of `l` are whitespace
and the `k`-th character (1-based) is a newline, in descending order. These
are the candidate amounts of input consumed by `\s*\n`, longest (greedy)
first. -/
def wsNlScan : List Char → Nat → List Nat → List Nat
  | [], _, acc => acc
  | c :: cs, pos, acc =>
    if jsWhitespace c then
      wsNlScan cs (pos + 1) (if c = '\n' then (pos + 1) :: acc else acc)
    else acc

/-- Candidate consumption lengths for `\s*\n`, descending (see `wsNlScan`). -/
def wsNlCandidates (l : List Char) : List Nat :=
  wsNlScan l 0 []

/-- If `l` begins with the closing delimiter `\n---\s*\n`, the number of
characters it consumes (with `\s*` greedy). -/
def sepAt (l : List Char) : Option Nat :=
  match l with
  | '\n' :: '-' :: '-' :: '-' :: after =>
    ((wsNlCandidates after).head?).map (fun k => 4 + k)
  | _ => none

/-- Earliest position of the closing front-matter delimiter in `l`, together
with the number of characters the delimiter consumes (the lazy group
`([\s\S]*?)` makes the regex engine pick the earliest occurrence). -/
def findSep : List Char → Nat → Option (Nat × Nat)
  | [], _ => none
  | l@(_ :: cs), i =>
    match sepAt l with
    | some len => some (i, len)
    | none => findSep cs (i + 1)

/-- Model of the front-matter regex
`/^---\s*\n([\s\S]*?)\n---\s*\n([\s\S]*)$/`: on success, the captured
front-matter text and the captured body. -/
def fmSplit (content : List Char) : Option (List Char × List Char) :=
  match content with
  | '-' :: '-' :: '-' :: rest =>
    (wsNlCandidates rest).findSome? fun k =>
      let tail := rest.drop k
      (findSep tail 0).map fun p => (tail.take p.1, tail.drop (p.1 + p.2))
  | _ => none

/-- Model of the per-line regex `/^(\w+):\s*(.+)$/`: the key is the leading
`\w+` run, which must be followed immediately by a colon; the value is the
rest with leading whitespace consumed by the greedy `\s*`, except that when
everything after the colon is whitespace, `\s*` backtracks one character so
that `(.+)` can match. -/
def matchKeyValue (line : List Char) : Option (List Char × List Char) :=
  let key := line.takeWhile isWordChar
  if key.isEmpty then none
  else
    match line.drop key.length with
    | ':' :: afterColon =>
      if afterColon.isEmpty then none
      else
        let ws := afterColon.takeWhile jsWhitespace
        let value := afterColon.drop ws.length
        if value.isEmpty then some (key, afterColon.drop (ws.length - 1))
        else some (key, value)
    | _ => none

/-- Strip one matching pair of leading/trailing single or double quotes,
like the source's `value.slice(1, -1)` branch. -/
def stripQuotes (v : List Char) : List Char :=
  if (v.head? = some (Char.ofNat 39) && v.getLast? = some (Char.ofNat 39)) ||
      (v.head? = some '"' && v.getLast? = some '"') then
    (v.drop 1).dropLast
  else v

/-- The front-matter record produced by `AgentManager.parseFrontmatter`.
Exactly the keys the source stores: `name`, `description`, `tools` (kept as
the raw, unsplit string), `model`, `color`, and `agentType` (only the
literal values "cursor" and "claude" are ever stored). The source has no
branch for any other key; in particular `autoApprovalMode` is not a field. -/
structure Frontmatter where
  name : Option String := none
  description : Option String := none
  tools : Option String := none
  model : Option String := none
  color : Option String := none
  agentType : Option String := none
deriving DecidableEq, Repr

/-- Process one front-matter line: match the key/value regex, trim the value,
skip the line when the trimmed value is empty, strip quotes, and store the
value under the recognized keys. `agentType` is stored only when the value is
"cursor" or "claude"; every other key or value is silently ignored. -/
def processLine (fm : Frontmatter) (line : List Char) : Frontmatter :=
  match matchKeyValue line with
  | none => fm
  | some (key, rawValue) =>
    let value := (jsTrim (String.mk rawValue)).data
    if value.isEmpty then fm
    else
      let value := stripQuotes value
      if key = "name".data then { fm with name := some (String.mk value) }
      else if key = "description".data then { fm with description := some (String.mk value) }
      else if key = "tools".data then { fm with tools := some (String.mk value) }
      else if key = "model".data then { fm with model := some (String.mk value) }
      else if key = "color".data then { fm with color := some (String.mk value) }
      else if key = "agentType".data then
        if value = "cursor".data then { fm with agentType := some "cursor" }
        else if value = "claude".data then { fm with agentType := some "claude" }
        else fm
      else fm

/-- Embedding of `AgentManager.parseFrontmatter`: match the front-matter
regex; on failure return empty metadata and no body; on success parse the
delimited block line by line (skipped entirely when the captured block is the
empty string, mirroring `if (frontmatterText)`). -/
def parseFrontmatter (content : String) : Frontmatter × Option String :=
  match fmSplit content.data with
  | none => ({}, none)
  | some (fmText, body) =>
    (if fmText.isEmpty then {} else (splitNl fmText).foldl processLine {},
      some (String.mk body))

example :
    parseFrontmatter "---\nname: my-agent\nmodel: sonnet\n---\nBody text."
      = ({ name := some "my-agent", model := some "sonnet" }, some "Body text.") := by
  decide

example : parseFrontmatter "# Just a heading\nNo front matter." = ({}, none) := by
  decide

/-! ## Call-parameter validation (`DynamicAgentTool.validateParams`)

The raw MCP call arguments arrive as an untyped JavaScript object. We model
the dynamically typed field values with `JsVal`; an absent field is `none`.
A non-object or null `params` value is modelled by `none` at the top level.
-/

/-- Dynamically typed JavaScript values, as far as the validator inspects
them: strings, numbers, booleans, null, and arrays. -/
inductive JsVal where
  | vStr : String → JsVal
  | vNum : Int → JsVal
  | vBool : Bool → JsVal
  | vNull : JsVal
  | vArr : List JsVal → JsVal

/-- The raw parameter object of a dynamic agent tool call. Each field is the
corresponding property of the JS object, `none` when absent. -/
structure RawParams where
  prompt : Option JsVal := none
  output_instructions : Option JsVal := none
  cwd : Option JsVal := none
  extra_args : Option JsVal := none

/-- The validated parameters returned by `validateParams` (the prompt is the
trimmed prompt string). -/
structure ValidatedParams where
  prompt : String
  output_instructions : Option String := none
  cwd : Option String := none
  extra_args : Option (List String) := none
deriving DecidableEq, Repr

/-- Validation of the optional `output_instructions` field: must be a string
when present, of length at most 5,000. -/
def checkOutputInstructions : Option JsVal → Except String (Option String)
  | none => .ok none
  | some (.vStr s) =>
    if s.length > 5000 then .error "output_instructions too long (max 5,000 characters)"
    else .ok (some s)
  | some _ => .error "output_instructions parameter must be a string if provided"

/-- Validation of the optional `cwd` field: must be a string of length at
most 1,000 containing neither `..` nor a NUL character. -/
def checkCwd : Option JsVal → Except String (Option String)
  | none => .ok none
  | some (.vStr s) =>
    if s.length > 1000 then .error "Working directory path too long (max 1000 characters)"
    else if jsIncludes s ".." || jsIncludes s (String.singleton (Char.ofNat 0)) then
      .error "Invalid working directory path"
    else .ok (some s)
  | some _ => .error "CWD parameter must be a string if provided"

/-- Per-entry validation of `extra_args`: each entry must be a string of
length at most 1,000; the error message names the offending index. -/
def checkExtraArgsFrom : Nat → List JsVal → Except String (List String)
  | _, [] => .ok []
  | i, .vStr s :: rest =>
    if s.length > 1000 then
      .error ("Extra argument at index " ++ toString i ++ " too long (max 1000 characters)")
    else (checkExtraArgsFrom (i + 1) rest).map (fun tail => s :: tail)
  | i, _ :: _ => .error ("Extra argument at index " ++ toString i ++ " must be a string")

/-- Validation of the optional `extra_args` field: must be an array of at
most 20 entries, each a string of length at most 1,000. -/
def checkExtraArgs : Option JsVal → Except String (Option (List String))
  | none => .ok none
  | some (.vArr xs) =>
    if xs.length > 20 then .error "Too many extra arguments (max 20 allowed)"
    else (checkExtraArgsFrom 0 xs).map some
  | some _ => .error "Extra args parameter must be an array if provided"

/-- Embedding of `DynamicAgentTool.validateParams` on a parameter object.
The prompt must be present and a string (the source's falsy check
`!p['prompt']` also sends the empty string to the "required" error); it is
then trimmed, rejected when empty after trimming, and rejected when the
trimmed length exceeds 50,000 characters. The optional fields are then
validated in order. -/
def validateParams (p : RawParams) : Except String ValidatedParams :=
  match p.prompt with
  | some (.vStr s) =>
    if s = "" then .error "Prompt parameter is required and must be a string"
    else
      let prompt := jsTrim s
      if prompt = "" then .error "Invalid prompt parameter: cannot be empty"
      else if prompt.length > 50000 then .error "Prompt too long (max 50,000 characters)"
      else
        match checkOutputInstructions p.output_instructions with
        | .error e => .error e
        | .ok oi =>
          match checkCwd p.cwd with
          | .error e => .error e
          | .ok c =>
            match checkExtraArgs p.extra_args with
            | .error e => .error e
            | .ok ea =>
              .ok { prompt := prompt, output_instructions := oi, cwd := c, extra_args := ea }
  | _ => .error "Prompt parameter is required and must be a string"

/-- Embedding of the leading `!params || typeof params !== 'object'` check of
`validateParams`: a null or non-object argument is modelled by `none`. -/
def validateParamsTop (params : Option RawParams) : Except String ValidatedParams :=
  match params with
  | none => .error "Invalid parameters: expected object"
  | some p => validateParams p

example :
    validateParams { prompt := some (.vStr "  hi there  ") }
      = .ok { prompt := "hi there" } := by decide

example :
    validateParams { prompt := some (.vStr "   ") }
      = .error "Invalid prompt parameter: cannot be empty" := by decide

example :
    validateParams { prompt := none }
      = .error "Prompt parameter is required and must be a string" := by decide

/-! ## Agent lookup (`AgentManager.getAgent`)

`getAgent` validates the requested name (defence in depth against path
traversal and shell metacharacters) before scanning the agents directory.
The directory scan itself is filesystem I/O, out of scope per the design;
its outcome (the loaded name-to-definition map, or the error thrown by
`loadAgentsFromDirectory`) is a parameter of the embedding.
-/

/-- The single-quote character, kept out of string literals. -/
def quoteCh : Char := Char.ofNat 39

/-- The backtick character. -/
def backtickCh : Char := Char.ofNat 96

/-- Characters rejected by `getAgent`: the JS regex class
`[<>:"/\\|?*;`$()&|\s]` (shell metacharacters, path separators, and
whitespace). -/
def invalidNameChar (c : Char) : Bool :=
  c = '<' || c = '>' || c = ':' || c = '"' || c = '/' || c = '\\' || c = '|' ||
    c = '?' || c = '*' || c = ';' || c = backtickCh || c = '$' || c = '(' ||
    c = ')' || c = '&' || jsWhitespace c

/-- Control characters rejected by `getAgent`: char codes 0 to 31 and 127. -/
def ctrlChar (c : Char) : Bool :=
  c.toNat ≤ 31 || c.toNat = 127

/-- The fields of a loaded agent definition that `DynamicAgentTool.execute`
reads: the body content, and the optional per-agent `agentType` and `model`
overrides. -/
structure AgentDef where
  content : String := ""
  agentType : Option String := none
  model : Option String := none
deriving DecidableEq, Repr

/-- Embedding of `AgentManager.getAgent`: syntactic validation of the name
(empty, whitespace-only, over-long, forbidden characters, control
characters, path-traversal substrings), each failure thrown as an error;
then the directory is loaded (its outcome is the `loadResult` parameter, an
error modelling a thrown directory-scan failure) and the name is looked up
in the resulting map, `none` when absent. -/
def getAgent (name : String) (loadResult : Except String (List (String × AgentDef))) :
    Except String (Option AgentDef) :=
  if name = "" then .error "Invalid agent name: agent name is required"
  else if (jsTrim name).length = 0 then .error "Invalid agent name: empty agent name not allowed"
  else if name.length > 255 then .error "Invalid agent name: too long agent name"
  else if name.data.any invalidNameChar then
    .error "Invalid agent name: forbidden characters detected"
  else if name.data.any ctrlChar then
    .error "Invalid agent name: forbidden characters detected"
  else if jsIncludes name ".." || jsIncludes name "./" || jsIncludes name ".\\" then
    .error "Invalid agent name: path traversal attempt detected"
  else
    match loadResult with
    | .error e => .error e
    | .ok agents => .ok (agents.lookup name)

example :
    getAgent "my agent" (.ok [("my agent", {})])
      = .error "Invalid agent name: forbidden characters detected" := by decide

example : getAgent "my-agent" (.ok [("my-agent", {})]) = .ok (some {}) := by decide

/-! ## Execution response formatting (`DynamicAgentTool.formatExecutionResponse`)
-/

/-- The result of a finished agent subprocess, as consumed by
`formatExecutionResponse` (`AgentExecutionResult`). -/
structure ExecResult where
  stdout : String
  stderr : String
  exitCode : Int
  executionTime : Nat
  hasResult : Bool
  resultJson : Option String := none
deriving DecidableEq, Repr

/-- The per-tool execution statistics (`executionStats`): invocation count
and cumulative execution time. -/
structure Stats where
  count : Nat
  totalTime : Nat
deriving DecidableEq, Repr

/-- One text content entry of an MCP tool response. -/
structure McpTextContent where
  type : String
  text : String
deriving DecidableEq, Repr

/-- The `structuredContent` record built by `formatExecutionResponse`:
all metadata of the execution, kept separate from the primary text. -/
structure StructuredContent where
  agent : String
  toolName : String
  exitCode : Int
  executionTime : Nat
  hasResult : Bool
  status : String
  agentType : Option String := none
  model : Option String := none
  result : Option String := none
  stderrOut : Option String := none
  requestId : Option String := none
  usageCount : Nat
  averageTime : Nat
deriving DecidableEq, Repr

/-- The `structuredContent` payload: either the execution metadata record,
or the smaller record built by `createErrorResponse` (status, error message,
agent name, tool name). -/
inductive StructuredPayload where
  | exec : StructuredContent → StructuredPayload
  | errPayload : String → String → String → String → StructuredPayload
deriving DecidableEq, Repr

/-- An MCP tool response: text content entries, the error flag, and the
structured metadata payload. -/
structure McpToolResponse where
  content : List McpTextContent
  isError : Bool
  structuredContent : Option StructuredPayload
deriving DecidableEq, Repr

/-- Model of the JS truthiness guard `if (x) { sc.y = x }` on an optional
string: an absent or empty string is omitted. -/
def jsOptTruthy : Option String → Option String
  | none => none
  | some s => if s = "" then none else some s

/-- Model of `Math.round(totalTime / count)` on natural numbers:
`round(t / c) = floor((2 t + c) / (2 c))`. -/
def jsRoundDiv (t c : Nat) : Nat :=
  (2 * t + c) / (2 * c)

/-- Embedding of `DynamicAgentTool.formatExecutionResponse`. Status
classification: success on exit code 0, or on exit code 143 (SIGTERM) with a
captured result; partial on exit code 124 (timeout) with a captured result;
error otherwise, and the response's `isError` flag is set exactly in the
error case. The primary text is `stdout || stderr || 'No output'`; all
metadata goes into `structuredContent`. -/
def formatExecutionResponse (agentName toolName : String) (stats : Stats) (r : ExecResult)
    (requestId : Option String) (agentType : Option String) (model : Option String) :
    McpToolResponse :=
  let contentText :=
    if r.stdout = "" then (if r.stderr = "" then "No output" else r.stderr) else r.stdout
  let sc : StructuredContent :=
    { agent := agentName
      toolName := toolName
      exitCode := r.exitCode
      executionTime := r.executionTime
      hasResult := r.hasResult
      status :=
        if r.exitCode = 0 ∨ (r.exitCode = 143 ∧ r.hasResult = true) then "success"
        else if r.exitCode = 124 ∧ r.hasResult = true then "partial"
        else "error"
      agentType := jsOptTruthy agentType
      model := jsOptTruthy model
      result := jsOptTruthy r.resultJson
      stderrOut := if r.stderr ≠ "" ∧ r.stdout ≠ "" then some r.stderr else none
      requestId := jsOptTruthy requestId
      usageCount := stats.count
      averageTime := jsRoundDiv stats.totalTime stats.count }
  { content := [{ type := "text", text := contentText }]
    isError :=
      if r.exitCode = 0 ∨ (r.exitCode = 143 ∧ r.hasResult = true) then false
      else if r.exitCode = 124 ∧ r.hasResult = true then false
      else true
    structuredContent := some (.exec sc) }

/-- Embedding of `DynamicAgentTool.createErrorResponse`: a normal tool
response carrying `isError: true`, the message as `Error: `-prefixed text,
and a small structured payload. -/
def createErrorResponse (agentName toolName errorMessage : String) : McpToolResponse :=
  { content := [{ type := "text", text := "Error: " ++ errorMessage }]
    isError := true
    structuredContent := some (.errPayload "error" errorMessage agentName toolName) }

/-- The agent-not-found message `Agent '<name>' not found` thrown inside
`execute`. -/
def notFoundMsg (name : String) : String :=
  "Agent " ++ String.singleton quoteCh ++ name ++ String.singleton quoteCh ++ " not found"

/-- Status string carried by a response's structured payload, when any. -/
def respStatus (m : McpToolResponse) : Option String :=
  match m.structuredContent with
  | some (.exec sc) => some sc.status
  | some (.errPayload st _ _ _) => some st
  | none => none

/-- Execution metadata record carried by a response, when any. -/
def respExec (m : McpToolResponse) : Option StructuredContent :=
  match m.structuredContent with
  | some (.exec sc) => some sc
  | _ => none

/-- Embedding of `DynamicAgentTool.execute`. The whole body runs inside a
`try`/`catch` whose handler converts any thrown error into
`createErrorResponse("Agent execution failed: " + message)`, so the function
is total: parameter validation errors, errors thrown by `getAgent`, the
agent-not-found error, and executor failures all become normal responses.
On success the statistics are updated (count +1, total time accumulated)
before formatting. The subprocess outcome is the `execOutcome` parameter
(the execution engine is an external collaborator). -/
def execute (agentName toolName : String) (params : Option RawParams)
    (loadResult : Except String (List (String × AgentDef)))
    (execOutcome : Except String ExecResult)
    (stats : Stats) (requestId : Option String) : McpToolResponse :=
  match validateParamsTop params with
  | .error e => createErrorResponse agentName toolName ("Agent execution failed: " ++ e)
  | .ok _ =>
    match getAgent agentName loadResult with
    | .error e => createErrorResponse agentName toolName ("Agent execution failed: " ++ e)
    | .ok none =>
      createErrorResponse agentName toolName ("Agent execution failed: " ++ notFoundMsg agentName)
    | .ok (some agent) =>
      match execOutcome with
      | .error e => createErrorResponse agentName toolName ("Agent execution failed: " ++ e)
      | .ok r =>
        formatExecutionResponse agentName toolName
          { count := stats.count + 1, totalTime := stats.totalTime + r.executionTime }
          r requestId agent.agentType agent.model

/-! ## Dynamic tool registry build (`McpServer.initializeDynamicTools`)

The server iterates the loaded agent list and registers one
`DynamicAgentTool` per agent in the `dynamicTools` map, keyed by the
sanitized tool name, while tracking every agent name per tool name in the
`toolNameToAgents` map. On a collision (`dynamicTools.has(tool.name)`), the
colliding agent names are collected, a warning naming all of them is
logged, and the registry entry is overwritten — the last agent in iteration
order wins. After the loop, an error-level summary enumerates every
collision group with its hidden agents and its accessible (last) agent.
The surrounding `try`/`catch` logs any thrown failure (in practice a failed
directory scan rethrown by `listAgents`) and clears the map, so the server
degrades to zero tools instead of crashing.
-/

/-- The agent fields used by the registry build: name and description. -/
structure AgentLite where
  name : String
  description : String
deriving DecidableEq, Repr

/-- The dynamic tool registry: an insertion-ordered map (JS `Map`) from
sanitized tool name to the registered agent. -/
abbrev ToolRegistry := List (String × AgentLite)

/-- JS `Map.prototype.has`. -/
def jsMapHas {α : Type} (m : List (String × α)) (k : String) : Bool :=
  m.any fun p => p.1 = k

/-- JS `Map.prototype.set`: replace in place when the key exists, append
otherwise. -/
def jsMapSet {α : Type} : List (String × α) → String → α → List (String × α)
  | [], k, v => [(k, v)]
  | (k0, v0) :: rest, k, v =>
    if k0 = k then (k, v) :: rest else (k0, v0) :: jsMapSet rest k v

/-- The state threaded through the registration loop of
`initializeDynamicTools`: the `dynamicTools` registry, the
`toolNameToAgents` collision-tracking map, and the collision warnings
logged so far (each carrying the tool name and all colliding agent
names). -/
structure BuildState where
  registry : ToolRegistry
  toolAgents : List (String × List String)
  warns : List (String × List String)
deriving DecidableEq, Repr

/-- One iteration of the registration loop. Without a collision, the agent
name is recorded in `toolNameToAgents` and the tool registered. On a
collision, the previously recorded colliding names are fetched
(`toolNameToAgents.get(tool.name) || []`), the new agent name is appended,
the tracking map is updated, a warning naming all colliding agents is
logged, and the registry entry is overwritten — last agent wins. The source
reconstructs the first agent's name through `existingTool.getAgentName()`
only when the fetched list is empty; since every registry insertion first
records its agent name in `toolNameToAgents`, that guard never fires in a
build that starts from the empty registry (and every call site runs the
build only when `dynamicTools.size === 0`). `DynamicAgentTool` defines no
`getAgentName` method — the call would throw if ever reached — so the model
reads the registered agent's name, which is what the call is meant to
return, on this otherwise-unreachable path. -/
def buildStep (st : BuildState) (a : AgentLite) : BuildState :=
  let tn := sanitizeToolName a.name
  if jsMapHas st.registry tn then
    let fetched := (st.toolAgents.lookup tn).getD []
    let existingAgents :=
      if fetched.isEmpty then
        match st.registry.lookup tn with
        | some t => [t.name]
        | none => []
      else fetched
    let agentsList := existingAgents ++ [a.name]
    { registry := jsMapSet st.registry tn a
      toolAgents := jsMapSet st.toolAgents tn agentsList
      warns := st.warns ++ [(tn, agentsList)] }
  else
    { registry := jsMapSet st.registry tn a
      toolAgents := jsMapSet st.toolAgents tn [a.name]
      warns := st.warns }

/-- The registration loop: fold `buildStep` over the agent list. -/
def buildRegistry (st : BuildState) (agents : List AgentLite) : BuildState :=
  agents.foldl buildStep st

/-- The error-level collision summary logged after the loop: every tool name
whose tracked agent list has more than one entry, with all its agent names,
the hidden agents (`agentNames.slice(0, -1)`), and the accessible agent
(`agentNames[agentNames.length - 1]`, the last one). -/
def collisionSummary (toolAgents : List (String × List String)) :
    List (String × List String × List String × Option String) :=
  (toolAgents.filter fun p => p.2.length > 1).map
    fun p => (p.1, p.2, p.2.dropLast, p.2.getLast?)

/-- Embedding of `McpServer.initializeDynamicTools`, keeping its observable
outputs: the resulting registry, the collision warnings logged during the
loop, and the error-level collision summary logged after it. The
`agentsResult` parameter is the outcome of `listAgents` (an error models a
thrown directory-scan failure); on a throw the catch handler clears the
registry (`this.dynamicTools.clear()`) instead of propagating, so no
collision logs are produced. -/
def initializeDynamicToolsFull (reg : ToolRegistry)
    (agentsResult : Except String (List AgentLite)) :
    ToolRegistry × List (String × List String)
      × List (String × List String × List String × Option String) :=
  match agentsResult with
  | .error _ => ([], [], [])
  | .ok agents =>
    let st := buildRegistry { registry := reg, toolAgents := [], warns := [] } agents
    (st.registry, st.warns, collisionSummary st.toolAgents)

/-- The registry produced by `initializeDynamicTools`. -/
def initializeDynamicTools (reg : ToolRegistry)
    (agentsResult : Except String (List AgentLite)) : ToolRegistry :=
  (initializeDynamicToolsFull reg agentsResult).1

/-- Whether the registry build throws: inside `initializeDynamicTools` the
only throwing operation is the agent listing (`listAgents` rethrows a failed
directory scan); the registration loop itself is total. -/
def initBuildThrows (_reg : ToolRegistry) (agentsResult : Except String (List AgentLite)) : Bool :=
  match agentsResult with
  | .error _ => true
  | .ok _ => false

example :
    initializeDynamicTools [] (.ok [⟨"alpha", "a"⟩, ⟨"beta", "b"⟩])
      = [("agent_alpha", ⟨"alpha", "a"⟩), ("agent_beta", ⟨"beta", "b"⟩)] := by decide

/-! ## Claim theorems -/

/-- C1: for every pair of distinct agent definitions whose names sanitize to
the same tool name, the registry build from the empty registry retains
exactly one reachable tool under that name — the one of the last agent in
iteration order — and logs exactly one collision warning naming both
colliding agent names, plus an error-level summary entry carrying the tool
name, both agent names, the hidden agent (the first) and the accessible
agent (the last). -/
theorem c1_collision_last_wins_logged (a1 a2 : AgentLite)
    (_hne : a1.name ≠ a2.name)
    (hcol : sanitizeToolName a1.name = sanitizeToolName a2.name) :
    initializeDynamicToolsFull [] (.ok [a1, a2])
      = ([(sanitizeToolName a1.name, a2)],
         [(sanitizeToolName a1.name, [a1.name, a2.name])],
         [(sanitizeToolName a1.name, [a1.name, a2.name], [a1.name], some a2.name)]) := by
  have h2 : sanitizeToolName a2.name = sanitizeToolName a1.name := hcol.symm
  simp [initializeDynamicToolsFull, buildRegistry, buildStep, h2, jsMapHas, jsMapSet,
    collisionSummary, List.lookup]

/-- Witness for C1: the colliding pair of the repository's own integration
test — `my_agent` and `my agent` both sanitize to `agent_my_agent`; the
second agent stays reachable, the warning names both, and the summary marks
`my_agent` hidden and `my agent` accessible. -/
theorem c1_witness :
    ("my_agent" : String) ≠ "my agent"
    ∧ sanitizeToolName "my_agent" = sanitizeToolName "my agent"
    ∧ initializeDynamicToolsFull []
        (.ok [⟨"my_agent", "First agent"⟩, ⟨"my agent", "Second agent"⟩])
      = ([("agent_my_agent", ⟨"my agent", "Second agent"⟩)],
         [("agent_my_agent", ["my_agent", "my agent"])],
         [("agent_my_agent", ["my_agent", "my agent"], ["my_agent"], some "my agent")]) :=
  ⟨by decide, by decide,
    c1_collision_last_wins_logged ⟨"my_agent", "First agent"⟩ ⟨"my agent", "Second agent"⟩
      (by decide) (by decide)⟩

/-- C3: evaluation of `parseFrontmatter` at the front-matter of the
repository's own `AgentManager` test (name `advanced-agent`, comma-separated
`tools`, `autoApprovalMode: true`, `model: claude-3`, `agentType: claude`).
The parser stores `tools` as the raw unsplit string
`"tool1, tool2, tool3"` — not the three-element list — and recognizes no
`autoApprovalMode` key at all (the `Frontmatter` record, like the source's
parse result, has no such field), while `agentType` is parsed as claimed. -/
theorem c3_frontmatter_evaluation :
    parseFrontmatter
        ("---\nname: advanced-agent\ndescription: \"Agent with tools and auto-approval\"\n" ++
          "tools: tool1, tool2, tool3\nautoApprovalMode: true\nmodel: claude-3\n" ++
          "agentType: claude\n---\n\nContent here.")
      = ({ name := some "advanced-agent",
           description := some "Agent with tools and auto-approval",
           tools := some "tool1, tool2, tool3",
           model := some "claude-3",
           color := none,
           agentType := some "claude" }, some "Content here.") := by
  decide

/-- C4: evaluation of the `agentType` front-matter handling. The parser
populates the field for the values `cursor` and `claude` but silently drops
`gemini` (exactly as it drops an arbitrary invalid value), although the
repository's own `AgentDefinition` interface declares
`agentType?: 'cursor' | 'claude' | 'gemini'`. This refutes the claimed
three-value enum on the `gemini` input. -/
theorem c4_agent_type_evaluation :
    (parseFrontmatter "---\nname: g-agent\nagentType: gemini\n---\nBody").1.agentType = none
    ∧ (parseFrontmatter "---\nname: g-agent\nagentType: claude\n---\nBody").1.agentType
        = some "claude"
    ∧ (parseFrontmatter "---\nname: g-agent\nagentType: cursor\n---\nBody").1.agentType
        = some "cursor"
    ∧ (parseFrontmatter "---\nname: g-agent\nagentType: invalid-value\n---\nBody").1.agentType
        = none := by
  decide

/-- C2: the derived status of every execution result is `success` iff the
exit code is 0 or (143 with a captured result); `partial` iff not success
and the exit code is 124 with a captured result; `error` in every other
case; and the response's `isError` flag is true exactly when the status is
`error`. -/
theorem c2_status_classification (an tn : String) (stats : Stats) (r : ExecResult)
    (rid aty mdl : Option String) :
    (respStatus (formatExecutionResponse an tn stats r rid aty mdl) = some "success"
        ↔ (r.exitCode = 0 ∨ (r.exitCode = 143 ∧ r.hasResult = true)))
    ∧ (respStatus (formatExecutionResponse an tn stats r rid aty mdl) = some "partial"
        ↔ (¬(r.exitCode = 0 ∨ (r.exitCode = 143 ∧ r.hasResult = true))
            ∧ r.exitCode = 124 ∧ r.hasResult = true))
    ∧ (respStatus (formatExecutionResponse an tn stats r rid aty mdl) = some "error"
        ↔ (¬(r.exitCode = 0 ∨ (r.exitCode = 143 ∧ r.hasResult = true))
            ∧ ¬(r.exitCode = 124 ∧ r.hasResult = true)))
    ∧ ((formatExecutionResponse an tn stats r rid aty mdl).isError = true
        ↔ respStatus (formatExecutionResponse an tn stats r rid aty mdl) = some "error") := by
  by_cases hS : r.exitCode = 0 ∨ (r.exitCode = 143 ∧ r.hasResult = true) <;>
    by_cases hP : r.exitCode = 124 ∧ r.hasResult = true <;>
      simp [formatExecutionResponse, respStatus, hS, hP]

/-- C6: for every agent name, the sanitized tool name is the literal prefix
`agent_` followed by the character-by-character image of the name, where each
character in `[A-Za-z0-9_-]` is kept and every other character is replaced
one-for-one by an underscore; the result has length exactly 6 plus the
length of the input (no character is collapsed or removed), and the
character at offset `6 + i` is exactly the image of the input character at
offset `i`. -/
theorem c6_sanitize_characterization (n : String) :
    (sanitizeToolName n).data
        = "agent_".data ++ n.data.map (fun c => if isToolNameChar c then c else '_')
    ∧ (sanitizeToolName n).length = 6 + n.length
    ∧ ∀ i : Nat, (sanitizeToolName n).data[6 + i]?
        = (n.data[i]?).map (fun c => if isToolNameChar c then c else '_') := by
  have h1 : (sanitizeToolName n).data
      = "agent_".data ++ n.data.map (fun c => if isToolNameChar c then c else '_') := rfl
  have h6 : ("agent_".data).length = 6 := rfl
  refine ⟨h1, ?_, ?_⟩
  · show (sanitizeToolName n).data.length = 6 + n.data.length
    rw [h1, List.length_append, h6, List.length_map]
  · intro i
    rw [h1, List.getElem?_append_right (by omega), h6]
    have hi : 6 + i - 6 = i := by omega
    rw [hi, List.getElem?_map]

/-- C7: if the registry build throws at any point (within
`initializeDynamicTools` the only throwing operation is the agent listing,
which rethrows a failed directory scan), the resulting tool registry is
empty — zero tools, never partially populated, whatever the registry held
before — and the build returns normally (the failure is swallowed by the
catch handler, not propagated). -/
theorem c7_build_failure_clears (reg : ToolRegistry)
    (agentsResult : Except String (List AgentLite))
    (h : initBuildThrows reg agentsResult = true) :
    initializeDynamicTools reg agentsResult = [] := by
  cases agentsResult with
  | error e => rfl
  | ok agents =>
    exfalso
    simp [initBuildThrows] at h

/-- Witness for C7: a concrete build that throws (a failed directory scan)
starting from a non-empty registry ends with the empty registry. -/
theorem c7_witness :
    initBuildThrows [("agent_x", ⟨"x", "d"⟩)]
        (.error "Failed to load agents from directory: /agents") = true
    ∧ initializeDynamicTools [("agent_x", ⟨"x", "d"⟩)]
        (.error "Failed to load agents from directory: /agents") = [] :=
  ⟨by decide, c7_build_failure_clears _ _ (by decide)⟩

/-- C8: tool execution never propagates parameter-validation failures or the
agent-not-found condition: `execute` (a total function — the try/catch
boundary of the source) returns the normal tool response built by
`createErrorResponse`, whose `isError` flag is true and whose text names the
violated constraint (respectively the missing agent). -/
theorem c8_execute_error_containment (an tn : String) (params : Option RawParams)
    (loadResult : Except String (List (String × AgentDef)))
    (execOutcome : Except String ExecResult) (stats : Stats) (rid : Option String) :
    (∀ e, validateParamsTop params = .error e →
        execute an tn params loadResult execOutcome stats rid
          = createErrorResponse an tn ("Agent execution failed: " ++ e))
    ∧ (∀ vp, validateParamsTop params = .ok vp → getAgent an loadResult = .ok none →
        execute an tn params loadResult execOutcome stats rid
          = createErrorResponse an tn ("Agent execution failed: " ++ notFoundMsg an))
    ∧ (∀ a t m, (createErrorResponse a t m).isError = true
        ∧ (createErrorResponse a t m).content = [{ type := "text", text := "Error: " ++ m }]) := by
  refine ⟨?_, ?_, ?_⟩
  · intro e he
    simp [execute, he]
  · intro vp hv hg
    simp [execute, hv, hg]
  · intro a t m
    exact ⟨rfl, rfl⟩

/-- Witness for C8: a call with no prompt yields the validation error
response, and a call for an agent absent from the loaded map yields the
not-found error response; both carry `isError: true` by the third part of
the theorem. -/
theorem c8_witness :
    validateParamsTop (some {}) = .error "Prompt parameter is required and must be a string"
    ∧ execute "agent-a" "agent_agent-a" (some {}) (.ok []) (.error "ignored") ⟨0, 0⟩ none
        = createErrorResponse "agent-a" "agent_agent-a"
            ("Agent execution failed: " ++ "Prompt parameter is required and must be a string")
    ∧ getAgent "agent-a" (.ok []) = .ok none
    ∧ execute "agent-a" "agent_agent-a" (some { prompt := some (.vStr "hi") }) (.ok [])
        (.error "ignored") ⟨0, 0⟩ none
        = createErrorResponse "agent-a" "agent_agent-a"
            ("Agent execution failed: " ++ notFoundMsg "agent-a")
    ∧ (createErrorResponse "agent-a" "agent_agent-a" "m").isError = true :=
  ⟨by decide,
    (c8_execute_error_containment "agent-a" "agent_agent-a" (some {}) (.ok [])
        (.error "ignored") ⟨0, 0⟩ none).1 _ (by decide),
    by decide,
    (c8_execute_error_containment "agent-a" "agent_agent-a"
        (some { prompt := some (.vStr "hi") }) (.ok [])
        (.error "ignored") ⟨0, 0⟩ none).2.1 ⟨"hi", none, none, none⟩ (by decide) (by decide),
    ((c8_execute_error_containment "agent-a" "agent_agent-a" (some {}) (.ok [])
        (.error "ignored") ⟨0, 0⟩ none).2.2 "agent-a" "agent_agent-a" "m").1⟩

/-- C9: for every completed execution, the primary text of the response is
exactly the captured stdout when non-empty, else the captured stderr when
non-empty, else the fixed placeholder "No output"; the exit code, timing and
usage statistics are carried in `structuredContent`; and the primary text is
invariant under every change of exit code, timing, result metadata,
engine/model and statistics — metadata is never concatenated into it. -/
theorem c9_primary_text (an tn : String) (stats : Stats) (r : ExecResult)
    (rid aty mdl : Option String) :
    (formatExecutionResponse an tn stats r rid aty mdl).content
      = [{ type := "text",
           text := if r.stdout = "" then (if r.stderr = "" then "No output" else r.stderr)
                   else r.stdout }]
    ∧ (respExec (formatExecutionResponse an tn stats r rid aty mdl)).map
        StructuredContent.exitCode = some r.exitCode
    ∧ (respExec (formatExecutionResponse an tn stats r rid aty mdl)).map
        StructuredContent.executionTime = some r.executionTime
    ∧ (respExec (formatExecutionResponse an tn stats r rid aty mdl)).map
        StructuredContent.usageCount = some stats.count
    ∧ ∀ (ec : Int) (t : Nat) (stats2 : Stats) (rid2 aty2 mdl2 rj2 : Option String),
        (formatExecutionResponse an tn stats2
            { r with exitCode := ec, executionTime := t, resultJson := rj2 }
            rid2 aty2 mdl2).content
          = (formatExecutionResponse an tn stats r rid aty mdl).content := by
  refine ⟨rfl, rfl, rfl, rfl, ?_⟩
  intro ec t stats2 rid2 aty2 mdl2 rj2
  simp [formatExecutionResponse]

/-- Helper for C10: `getAgent` throws (before any directory lookup) whenever
the requested name contains a forbidden character, whatever the state of the
agents directory. -/
theorem getAgent_error_of_forbidden (name : String)
    (h : name.data.any invalidNameChar = true)
    (loadResult : Except String (List (String × AgentDef))) :
    ∃ e, getAgent name loadResult = .error e := by
  unfold getAgent
  by_cases h1 : name = ""
  · exact ⟨_, by rw [if_pos h1]⟩
  · rw [if_neg h1]
    by_cases h2 : (jsTrim name).length = 0
    · exact ⟨_, by rw [if_pos h2]⟩
    · rw [if_neg h2]
      by_cases h3 : name.length > 255
      · exact ⟨_, by rw [if_pos h3]⟩
      · rw [if_neg h3]
        exact ⟨_, by rw [if_pos h]⟩

/-- C10: an agent whose stored name contains whitespace or one of the
forbidden characters (possible, because the front-matter parser accepts a
`name:` value with spaces) is still registered as a tool by the registry
build, yet every call to that tool's `execute` returns `isError: true`: the
name fails `getAgent`'s syntactic validation before the lookup, whatever the
parameters, directory state, or subprocess outcome — such a tool can never
execute successfully. -/
theorem c10_forbidden_name_tool (name : String)
    (h : name.data.any invalidNameChar = true) :
    (∀ (tn : String) (params : Option RawParams)
        (loadResult : Except String (List (String × AgentDef)))
        (execOutcome : Except String ExecResult) (stats : Stats) (rid : Option String),
        (execute name tn params loadResult execOutcome stats rid).isError = true)
    ∧ ∀ d : String, initializeDynamicTools [] (.ok [⟨name, d⟩])
        = [(sanitizeToolName name, ⟨name, d⟩)] := by
  constructor
  · intro tn params loadResult execOutcome stats rid
    cases hv : validateParamsTop params with
    | error e => simp [execute, hv, createErrorResponse]
    | ok vp =>
      obtain ⟨e, he⟩ := getAgent_error_of_forbidden name h loadResult
      simp [execute, hv, he, createErrorResponse]
  · intro d
    simp [initializeDynamicTools, initializeDynamicToolsFull, buildRegistry, buildStep,
      jsMapHas, jsMapSet]

/-- Witness for C10: the front-matter parser accepts `name: my agent`; that
name contains a forbidden character (the space); the registry build registers
it as the tool `agent_my_agent`; and a call with valid parameters and a
successful subprocess outcome still returns `isError: true`. -/
theorem c10_witness :
    (parseFrontmatter "---\nname: my agent\n---\nBody").1.name = some "my agent"
    ∧ ("my agent" : String).data.any invalidNameChar = true
    ∧ (execute "my agent" "agent_my_agent"
        (some { prompt := some (.vStr "do something") }) (.ok [])
        (.ok { stdout := "out", stderr := "", exitCode := 0, executionTime := 5,
               hasResult := true })
        ⟨0, 0⟩ none).isError = true
    ∧ initializeDynamicTools [] (.ok [⟨"my agent", "desc"⟩])
        = [("agent_my_agent", ⟨"my agent", "desc"⟩)] :=
  ⟨by decide, by decide,
    (c10_forbidden_name_tool "my agent" (by decide)).1 _ _ _ _ _ _,
    by
      have h2 := (c10_forbidden_name_tool "my agent" (by decide)).2 "desc"
      rw [(by decide : sanitizeToolName "my agent" = "agent_my_agent")] at h2
      exact h2⟩

/-- Helper: dropping whitespace from a replicate of a non-whitespace
character is the identity. -/
theorem dropWhile_ws_replicate (c : Char) (h : jsWhitespace c = false) (n : Nat) :
    List.dropWhile jsWhitespace (List.replicate n c) = List.replicate n c := by
  cases n with
  | zero => rfl
  | succ m =>
    rw [List.replicate_succ, List.dropWhile_cons, if_neg (by simp [h])]

/-- Helper: trimming a string of `n` copies of a non-whitespace character is
the identity. -/
theorem jsTrim_replicate (c : Char) (h : jsWhitespace c = false) (n : Nat) :
    jsTrim (String.mk (List.replicate n c)) = String.mk (List.replicate n c) := by
  unfold jsTrim
  rw [show (String.mk (List.replicate n c)).data = List.replicate n c from rfl,
    dropWhile_ws_replicate c h, List.reverse_replicate, dropWhile_ws_replicate c h,
    List.reverse_replicate]

/-- Helper: trimming a single leading space off a replicate of a
non-whitespace character. -/
theorem jsTrim_space_replicate (c : Char) (h : jsWhitespace c = false) (n : Nat) :
    jsTrim (String.mk (' ' :: List.replicate n c)) = String.mk (List.replicate n c) := by
  unfold jsTrim
  rw [show (String.mk (' ' :: List.replicate n c)).data = ' ' :: List.replicate n c from rfl,
    List.dropWhile_cons, if_pos (by decide : jsWhitespace ' ' = true),
    dropWhile_ws_replicate c h, List.reverse_replicate, dropWhile_ws_replicate c h,
    List.reverse_replicate]

/-- Helper (shared by the C5 theorems): the exact behaviour of
`validateParams` on the prompt field. The length limit is applied to the
TRIMMED prompt; the "required" message covers a missing, non-string or empty
prompt; the empty-after-trim and too-long rejections hold whatever the other
fields contain; and a trimmed prompt within the limit is accepted when the
optional fields are absent. -/
theorem validateParams_prompt_cases (p : RawParams) (s : String)
    (hp : p.prompt = some (.vStr s)) :
    ((jsTrim s).length > 50000 →
        validateParams p = .error "Prompt too long (max 50,000 characters)")
    ∧ (s ≠ "" → jsTrim s = "" →
        validateParams p = .error "Invalid prompt parameter: cannot be empty")
    ∧ (∀ q : RawParams,
        (q.prompt = none ∨ q.prompt = some (.vStr "")
          ∨ ∃ w, q.prompt = some w ∧ ∀ t, w ≠ .vStr t) →
        validateParams q = .error "Prompt parameter is required and must be a string")
    ∧ (s ≠ "" → jsTrim s ≠ "" → (jsTrim s).length ≤ 50000 →
        p.output_instructions = none → p.cwd = none → p.extra_args = none →
        validateParams p = .ok { prompt := jsTrim s }) := by
  refine ⟨?_, ?_, ?_, ?_⟩
  · intro h
    have hs : s ≠ "" := by
      intro hc
      rw [hc] at h
      have : (jsTrim "").length = 0 := by decide
      omega
    have hne : jsTrim s ≠ "" := by
      intro hc
      rw [hc] at h
      have : ("" : String).length = 0 := by decide
      omega
    simp only [validateParams, hp]
    rw [if_neg hs, if_neg hne, if_pos h]
  · intro hs htrim
    simp only [validateParams, hp]
    rw [if_neg hs, if_pos htrim]
  · intro q hq
    rcases hq with hq | hq | ⟨w, hw, hnw⟩
    · simp only [validateParams, hq]
    · simp only [validateParams, hq]
      simp
    · cases w with
      | vStr t => exact absurd rfl (hnw t)
      | vNum k => simp only [validateParams, hw]
      | vBool b => simp only [validateParams, hw]
      | vNull => simp only [validateParams, hw]
      | vArr xs => simp only [validateParams, hw]
  · intro hs hne hlen h1 h2 h3
    simp only [validateParams, hp, h1, h2, h3]
    rw [if_neg hs, if_neg hne, if_neg (by omega : ¬((jsTrim s).length > 50000))]
    rfl

/-- C5 counterexample: a prompt of 50,001 characters (a leading space
followed by 50,000 letters) is longer than 50,000 characters, yet
`validateParams` ACCEPTS it, because the source applies the length limit to
the trimmed prompt. This refutes "every prompt longer than 50,000 characters
is rejected" as stated. -/
theorem c5_counterexample :
    (String.mk (' ' :: List.replicate 50000 'a')).length = 50001
    ∧ validateParams
        { prompt := some (.vStr (String.mk (' ' :: List.replicate 50000 'a'))) }
      = .ok { prompt := String.mk (List.replicate 50000 'a') } := by
  have ht := jsTrim_space_replicate 'a' (by decide) 50000
  have hlen : (String.mk (List.replicate 50000 'a')).length = 50000 := by
    show (List.replicate 50000 'a').length = 50000
    rw [List.length_replicate]
  constructor
  · show (' ' :: List.replicate 50000 'a').length = 50001
    rw [List.length_cons, List.length_replicate]
  · have h := (validateParams_prompt_cases
        { prompt := some (.vStr (String.mk (' ' :: List.replicate 50000 'a'))) }
        (String.mk (' ' :: List.replicate 50000 'a')) rfl).2.2.2
      (by
        intro hc
        have hd := congrArg String.data hc
        exact List.noConfusion hd)
      (by
        rw [ht]
        intro hc
        have hd := congrArg String.length hc
        have h0 : ("" : String).length = 0 := rfl
        omega)
      (by
        rw [ht]
        omega)
      rfl rfl rfl
    rw [ht] at h
    exact h

/-- C5 (amended): prompt validation operates on the TRIMMED prompt: it
rejects with the "required" message when the prompt is missing, not a
string, or the empty string; rejects ("cannot be empty") when the prompt
trims to empty; rejects ("too long") exactly when the trimmed prompt
exceeds 50,000 characters — so a raw prompt longer than 50,000 characters
whose trimmed form is within the limit is accepted — and accepts a prompt
whose trimmed length is at most 50,000 (in particular one of exactly 50,000
characters with no surrounding whitespace). -/
theorem c5_trimmed_prompt_validation (p : RawParams) (s : String)
    (hp : p.prompt = some (.vStr s)) :
    ((jsTrim s).length > 50000 →
        validateParams p = .error "Prompt too long (max 50,000 characters)")
    ∧ (s ≠ "" → jsTrim s = "" →
        validateParams p = .error "Invalid prompt parameter: cannot be empty")
    ∧ (∀ q : RawParams,
        (q.prompt = none ∨ q.prompt = some (.vStr "")
          ∨ ∃ w, q.prompt = some w ∧ ∀ t, w ≠ .vStr t) →
        validateParams q = .error "Prompt parameter is required and must be a string")
    ∧ (s ≠ "" → jsTrim s ≠ "" → (jsTrim s).length ≤ 50000 →
        p.output_instructions = none → p.cwd = none → p.extra_args = none →
        validateParams p = .ok { prompt := jsTrim s }) :=
  validateParams_prompt_cases p s hp

/-- Witness for C5 (amended): a 50,001-character non-whitespace prompt is
rejected as too long; a whitespace-only prompt is rejected as empty; a
missing prompt gets the "required" message; and an ordinary prompt is
accepted trimmed. -/
theorem c5_witness :
    validateParams { prompt := some (.vStr (String.mk (List.replicate 50001 'b'))) }
      = .error "Prompt too long (max 50,000 characters)"
    ∧ validateParams { prompt := some (.vStr "  ") }
      = .error "Invalid prompt parameter: cannot be empty"
    ∧ validateParams { prompt := none }
      = .error "Prompt parameter is required and must be a string"
    ∧ validateParams { prompt := some (.vStr "ok prompt") } = .ok { prompt := "ok prompt" } :=
  ⟨(c5_trimmed_prompt_validation _ _ rfl).1
      (by
        rw [jsTrim_replicate 'b' (by decide) 50001]
        show (List.replicate 50001 'b').length > 50000
        rw [List.length_replicate]
        omega),
    (c5_trimmed_prompt_validation { prompt := some (.vStr "  ") } "  " rfl).2.1
      (by decide) (by decide),
    (c5_trimmed_prompt_validation { prompt := some (.vStr "x") } "x" rfl).2.2.1
      { prompt := none } (Or.inl rfl),
    by
      have h := (c5_trimmed_prompt_validation { prompt := some (.vStr "ok prompt") }
          "ok prompt" rfl).2.2.2 (by decide) (by decide) (by decide) rfl rfl rfl
      rw [(by decide : jsTrim "ok prompt" = "ok prompt")] at h
      exact h⟩

end SubAgents
